import Mathlib

/-!
# MachOSwiftSection: the native invocation bridge

A shallow embedding of the C/C++ sources of the bridge:

* `Sources/MachOTestingSupportC/CDemangleTree.cpp`: the lazily loaded
  wrapper around `libswiftDemangle.dylib`;
* `Sources/MachOSwiftSectionC/CallAccessor.c`: the five metadata accessor
  call shapes;
* `Sources/MachOSwiftSectionC/ValueWitnessTable.{h,c}`: the value witness
  table dispatch stubs;
* `Sources/UtilitiesC/PtrAuthWrapper.{h,c}`: the sign, strip and blend
  wrappers.

Pointers are natural numbers and `0` is the null pointer.  Foreign code
(the dynamic loader, the functions of the loaded library, the allocator,
accessors and witnesses found in a binary) is a parameter of each
operation, and every foreign call an operation performs is recorded, in
order, in a trace.
-/

namespace CDemangleTree

/-! ## ABI-compatible declarations -/

/-- Mirror of `llvm::StringRef`: a data pointer and a length. -/
structure StringRef where
  data : Nat
  length : Nat
  deriving DecidableEq, Repr

/-- Mirror of `swift::Demangle::Context`: eight bytes of storage. -/
structure Context where
  _storage : Nat
  deriving DecidableEq, Repr

/-- The five file-scope statics `sLib`, `sCtxCtor`, `sCtxDtor`,
`sDemangle`, `sTreeStr`. -/
structure Globals where
  sLib : Nat
  sCtxCtor : Nat
  sCtxDtor : Nat
  sDemangle : Nat
  sTreeStr : Nat
  deriving DecidableEq, Repr

/-- The statics as initialised at program start: all `nullptr`. -/
def Globals.init : Globals :=
  { sLib := 0, sCtxCtor := 0, sCtxDtor := 0, sDemangle := 0, sTreeStr := 0 }

/-- A foreign call made by the bridge. -/
inductive Event where
  | dlopen (path : String)
  | dlsym (handle : Nat) (symbol : String)
  | ctxCtor (fn : Nat) (ctx : Nat)
  | demangle (fn : Nat) (ctx : Nat) (ref : StringRef)
  | treeStr (fn : Nat) (node : Nat)
  | malloc (size : Nat)
  | memcpy (dst : Nat) (bytes : List Nat)
  | ctxDtor (fn : Nat) (ctx : Nat)
  deriving DecidableEq, Repr

/-- The world one call of the bridge runs in: the dynamic loader, the code
found at the resolved addresses, the allocator, readable memory, and the
address of the caller-local `Context ctx`. -/
structure Host where
  /-- Result of `dlopen(path, RTLD_LAZY)`; `0` when the library does not open. -/
  dlopen : String → Nat
  /-- Result of `dlsym(handle, symbol)`; `0` when the symbol does not resolve. -/
  dlsym : Nat → String → Nat
  /-- Storage written by the constructor found at the given address. -/
  ctxCtor : Nat → Context
  /-- Node returned by the code at the given address for a context, a
  string view and the bytes the view covers. -/
  demangleSymbolAsNode : Nat → Context → StringRef → List Nat → Nat
  /-- Bytes of the `std::string` returned by the code at the given address
  for a node. -/
  getNodeTreeAsString : Nat → Nat → List Nat
  /-- Result of `malloc(size)`; `0` when the allocation fails. -/
  malloc : Nat → Nat
  /-- Bytes of memory from the given address on. -/
  mem : Nat → List Nat
  /-- Address of the local variable `ctx`. -/
  frame : Nat

/-- What a call of the public function yields: `nullptr`, a heap buffer at
an address with its contents, or a fault (a call through a null function
pointer, or `memcpy` into a null destination). -/
inductive Result where
  | null
  | buffer (ptr : Nat) (bytes : List Nat)
  | fault
  deriving DecidableEq, Repr

/-- Outcome of one call: the value returned, the statics afterwards and the
foreign calls made, in order. -/
structure Run where
  result : Result
  globals : Globals
  trace : List Event
  deriving DecidableEq, Repr

/-- The first candidate location: the library inside the Xcode toolchain. -/
def xcodeToolchainPath : String :=
  "/Applications/Xcode.app/Contents/Developer/Toolchains/XcodeDefault.xctoolchain/usr/lib/libswiftDemangle.dylib"

/-- The second candidate location: the bare name, left to the loader's search. -/
def bareLibraryName : String := "libswiftDemangle.dylib"

/-- The candidate locations `paths[]`, without the terminating `nullptr`. -/
def paths : List String := [xcodeToolchainPath, bareLibraryName]

def symCtxCtor : String := "_ZN5swift8Demangle7ContextC1Ev"

def symCtxDtor : String := "_ZN5swift8Demangle7ContextD1Ev"

def symDemangle : String :=
  "_ZN5swift8Demangle7Context20demangleSymbolAsNodeEN4llvm9StringRefE"

def symTreeStr : String := "_ZN5swift8Demangle19getNodeTreeAsStringEPNS0_4NodeE"

/-- The loop `for (i = 0; paths[i]; ++i) { sLib = dlopen(paths[i], RTLD_LAZY);
if (sLib) break; }` over the remaining candidates: the final value of
`sLib` and the `dlopen` calls made. -/
def openLoop (h : Host) : List String → Nat → Nat × List Event
  | [], sLib => (sLib, [])
  | p :: ps, _ =>
    let sLib := h.dlopen p
    if sLib ≠ 0 then (sLib, [Event.dlopen p])
    else
      let r := openLoop h ps sLib
      (r.1, Event.dlopen p :: r.2)

/-- Embedding of `static bool ensureLoaded()`: the value returned, the
statics afterwards and the loader calls made. -/
def ensureLoaded (h : Host) (g : Globals) : Bool × Globals × List Event :=
  if g.sLib ≠ 0 then (true, g, [])
  else
    let o := openLoop h paths g.sLib
    let g1 := { g with sLib := o.1 }
    if g1.sLib = 0 then (false, g1, o.2)
    else
      let g2 : Globals :=
        { sLib := g1.sLib
          sCtxCtor := h.dlsym g1.sLib symCtxCtor
          sCtxDtor := h.dlsym g1.sLib symCtxDtor
          sDemangle := h.dlsym g1.sLib symDemangle
          sTreeStr := h.dlsym g1.sLib symTreeStr }
      (decide (g2.sCtxCtor ≠ 0) && decide (g2.sCtxDtor ≠ 0)
          && decide (g2.sDemangle ≠ 0) && decide (g2.sTreeStr ≠ 0),
        g2,
        o.2 ++ [Event.dlsym g1.sLib symCtxCtor, Event.dlsym g1.sLib symCtxDtor,
                Event.dlsym g1.sLib symDemangle, Event.dlsym g1.sLib symTreeStr])

/-- C `strlen`: the number of bytes before the first zero byte. -/
def strlen (bytes : List Nat) : Nat :=
  (bytes.takeWhile (fun b => b ≠ 0)).length

/-- The buffer `std::string::c_str()` points at: the bytes followed by a
terminating zero. -/
def c_str (tree : List Nat) : List Nat := tree ++ [0]

/-- Embedding of `char *swift_demangle_getNodeTreeAsString(const char *)`.
The argument is the pointer `mangledName` (`0` for `NULL`); the bytes it
points at are `h.mem mangledName`. -/
def swift_demangle_getNodeTreeAsString (h : Host) (g : Globals)
    (mangledName : Nat) : Run :=
  if mangledName = 0 then ⟨Result.null, g, []⟩
  else
    let l := ensureLoaded h g
    let g1 := l.2.1
    let t0 := l.2.2
    if l.1 = false then ⟨Result.null, g1, t0⟩
    else if g1.sCtxCtor = 0 then ⟨Result.fault, g1, t0⟩
    else
      -- Context ctx; sCtxCtor(&ctx);
      let ctx := h.ctxCtor g1.sCtxCtor
      let t1 := t0 ++ [Event.ctxCtor g1.sCtxCtor h.frame]
      -- StringRef ref = { mangledName, strlen(mangledName) };
      let ref : StringRef := ⟨mangledName, strlen (h.mem mangledName)⟩
      if g1.sDemangle = 0 then ⟨Result.fault, g1, t1⟩
      else
        -- Node *node = sDemangle(&ctx, ref);
        let node := h.demangleSymbolAsNode g1.sDemangle ctx ref
          ((h.mem ref.data).take ref.length)
        let t2 := t1 ++ [Event.demangle g1.sDemangle h.frame ref]
        if node ≠ 0 then
          if g1.sTreeStr = 0 then ⟨Result.fault, g1, t2⟩
          else
            -- std::string tree = sTreeStr(node);
            let tree := h.getNodeTreeAsString g1.sTreeStr node
            let t3 := t2 ++ [Event.treeStr g1.sTreeStr node]
            -- result = malloc(tree.size() + 1);
            let result := h.malloc (tree.length + 1)
            let t4 := t3 ++ [Event.malloc (tree.length + 1)]
            if result = 0 then ⟨Result.fault, g1, t4⟩
            else
              -- memcpy(result, tree.c_str(), tree.size() + 1);
              let copied := (c_str tree).take (tree.length + 1)
              let t5 := t4 ++ [Event.memcpy result copied]
              if g1.sCtxDtor = 0 then ⟨Result.fault, g1, t5⟩
              else
                ⟨Result.buffer result copied, g1,
                  t5 ++ [Event.ctxDtor g1.sCtxDtor h.frame]⟩
        else
          if g1.sCtxDtor = 0 then ⟨Result.fault, g1, t2⟩
          else
            ⟨Result.null, g1, t2 ++ [Event.ctxDtor g1.sCtxDtor h.frame]⟩

/-- The library is loaded: the handle and the four resolved addresses are
all non-null (`LOADED_OK`). -/
def Loaded (g : Globals) : Prop :=
  g.sLib ≠ 0 ∧ g.sCtxCtor ≠ 0 ∧ g.sCtxDtor ≠ 0 ∧ g.sDemangle ≠ 0 ∧ g.sTreeStr ≠ 0

instance (g : Globals) : Decidable (Loaded g) :=
  inferInstanceAs (Decidable
    (g.sLib ≠ 0 ∧ g.sCtxCtor ≠ 0 ∧ g.sCtxDtor ≠ 0 ∧ g.sDemangle ≠ 0 ∧ g.sTreeStr ≠ 0))

/-- The library is loaded when the load check of a call made in host `h`
from statics `g` has run: it was loaded before, or the load attempt of
this very call succeeds. -/
def LoadedAfterCheck (h : Host) (g : Globals) : Prop :=
  Loaded (ensureLoaded h g).2.1

instance (h : Host) (g : Globals) : Decidable (LoadedAfterCheck h g) :=
  inferInstanceAs (Decidable (Loaded (ensureLoaded h g).2.1))

/-- The string view `{mangledName, strlen(mangledName)}` built by a call. -/
def viewOf (h : Host) (mangledName : Nat) : StringRef :=
  ⟨mangledName, strlen (h.mem mangledName)⟩

/-- The node the resolve-to-node function returns in a call that reaches it. -/
def nodeOf (h : Host) (g : Globals) (mangledName : Nat) : Nat :=
  let g1 := (ensureLoaded h g).2.1
  h.demangleSymbolAsNode g1.sDemangle (h.ctxCtor g1.sCtxCtor) (viewOf h mangledName)
    ((h.mem mangledName).take (strlen (h.mem mangledName)))

/-- The string the render function returns for the node of a call. -/
def renderOf (h : Host) (g : Globals) (mangledName : Nat) : List Nat :=
  h.getNodeTreeAsString (ensureLoaded h g).2.1.sTreeStr (nodeOf h g mangledName)

/-- Calls of `dlopen` and `dlsym`. -/
def Event.isLoaderCall : Event → Bool
  | Event.dlopen _ => true
  | Event.dlsym _ _ => true
  | _ => false

/-- Calls of the context constructor and destructor. -/
def Event.isCtxCall : Event → Bool
  | Event.ctxCtor _ _ => true
  | Event.ctxDtor _ _ => true
  | _ => false

/-- Calls through one of the four resolved function pointers. -/
def Event.isResolvedCall : Event → Bool
  | Event.ctxCtor _ _ => true
  | Event.ctxDtor _ _ => true
  | Event.demangle _ _ _ => true
  | Event.treeStr _ _ => true
  | _ => false

/-- Calls of the render function, the allocator and the copy. -/
def Event.isRenderOrAlloc : Event → Bool
  | Event.treeStr _ _ => true
  | Event.malloc _ => true
  | Event.memcpy _ _ => true
  | _ => false

/-- Two hosts run the same, deterministic library on the same name: the
constructor, the resolve-to-node function and the render function agree,
and so do the bytes the name points at. The loader, the allocator and
the frame address may differ. -/
def SameLibrary (h1 h2 : Host) (mangledName : Nat) : Prop :=
  h1.ctxCtor = h2.ctxCtor ∧ h1.demangleSymbolAsNode = h2.demangleSymbolAsNode ∧
  h1.getNodeTreeAsString = h2.getNodeTreeAsString ∧ h1.mem mangledName = h2.mem mangledName

/-- Consecutive calls of the public function, each in its own host and with
its own name, threading the statics; a fault ends the process. -/
def runCalls (g : Globals) : List (Host × Nat) → List Run
  | [] => []
  | c :: cs =>
    let r := swift_demangle_getNodeTreeAsString c.1 g c.2
    r :: (if r.result = Result.fault then [] else runCalls r.globals cs)

/-- A host whose library opens but lacks the render symbol; the name at
every address is `x`, for which the resolve-to-node function finds no
node. -/
def partialHost : Host :=
  { dlopen := fun _ => 4096
    dlsym := fun _ s => if s = symTreeStr then 0 else 8192 + s.length
    ctxCtor := fun _ => ⟨7⟩
    demangleSymbolAsNode := fun _ _ _ _ => 0
    getNodeTreeAsString := fun _ _ => [83, 105]
    malloc := fun _ => 12288
    mem := fun _ => [120, 0]
    frame := 65536 }

/-- A host whose library opens and has all four symbols; the name at every
address is `_TtSi`, which demangles to a node rendered as `Si`. -/
def completeHost : Host :=
  { dlopen := fun _ => 4096
    dlsym := fun _ s => 8192 + s.length
    ctxCtor := fun _ => ⟨7⟩
    demangleSymbolAsNode := fun _ _ _ _ => 20480
    getNodeTreeAsString := fun _ _ => [83, 105]
    malloc := fun _ => 12288
    mem := fun _ => [95, 84, 116, 83, 105, 0]
    frame := 65536 }

/-- A host in which no candidate location opens. -/
def missingHost : Host :=
  { completeHost with dlopen := fun _ => 0 }

/-- A host like `completeHost` in which every allocation fails. -/
def noMemoryHost : Host :=
  { completeHost with malloc := fun _ => 0 }

/-- A host in which the toolchain path does not open and the bare name does. -/
def bareOnlyHost : Host :=
  { completeHost with dlopen := fun p => if p = bareLibraryName then 24576 else 0 }

/-- The statics left behind by a call in `partialHost` from the initial
statics: the handle is cached, the render address is null. -/
def partialGlobals : Globals :=
  { sLib := 4096, sCtxCtor := 8222, sCtxDtor := 8222, sDemangle := 8258, sTreeStr := 0 }

/-- The statics after a successful load in `completeHost`. -/
def completeGlobals : Globals :=
  { sLib := 4096, sCtxCtor := 8222, sCtxDtor := 8222, sDemangle := 8258, sTreeStr := 8244 }

/-- A host like `completeHost` whose allocator and frame differ. -/
def laterHost : Host :=
  { completeHost with malloc := fun _ => 16384, frame := 69632 }

/-- A host like `completeHost` in which no name demangles. -/
def noNodeHost : Host :=
  { completeHost with demangleSymbolAsNode := fun _ _ _ _ => 0 }

end CDemangleTree

namespace PtrAuth

/-! ## Pointer authentication, as provided by the compiler and the hardware

`<ptrauth.h>` is not part of the repository: its key constants are listed
here and the operations it exposes are fields of `Hardware`. -/

def ptrauth_key_asia : Nat := 0

def ptrauth_key_asib : Nat := 1

def ptrauth_key_asda : Nat := 2

def ptrauth_key_asdb : Nat := 3

/-- The key of C function pointers. -/
def ptrauth_key_function_pointer : Nat := ptrauth_key_asia

/-- The pointer-authentication operations of the target. -/
structure Hardware where
  /-- `ptrauth_sign_unauthenticated(ptr, key, discriminator)`. -/
  sign : Nat → Nat → Nat → Nat
  /-- The address obtained when a pointer value is authenticated with a key
  and a discriminator, as done by an authenticated load or branch. -/
  auth : Nat → Nat → Nat → Nat
  /-- `ptrauth_blend_discriminator(ptr, discriminator)`. -/
  blend : Nat → Nat → Nat
  /-- `ptrauth_strip(ptr, key)`. -/
  strip : Nat → Nat → Nat

/-- Modelled from the spec: `<ptrauth.h>` is outside the repository; on
hardware lacking the signing feature its sign and strip operations
degrade to the identity. -/
def Hardware.LacksSigning (hw : Hardware) : Prop :=
  (∀ p k d, hw.sign p k d = p) ∧ (∀ p k, hw.strip p k = p)

/-- Hardware without the signing feature: signing, stripping and
authentication return the pointer, blending returns a constant. -/
def plainHardware : Hardware :=
  { sign := fun p _ _ => p
    auth := fun p _ _ => p
    blend := fun _ _ => 0
    strip := fun p _ => p }

/-! ## `PtrAuthWrapper.{h,c}` -/

def PtrAuthKeyASIA : Nat := 0

def PtrAuthKeyASIB : Nat := 1

def PtrAuthKeyASDA : Nat := 2

def PtrAuthKeyASDB : Nat := 3

/-- Embedding of `PtrAuth_sign`: the `switch` over the four keys, with
`default: return ptr;`. -/
def PtrAuth_sign (hw : Hardware) (ptr key discriminator : Nat) : Nat :=
  if key = PtrAuthKeyASIA then hw.sign ptr ptrauth_key_asia discriminator
  else if key = PtrAuthKeyASIB then hw.sign ptr ptrauth_key_asib discriminator
  else if key = PtrAuthKeyASDA then hw.sign ptr ptrauth_key_asda discriminator
  else if key = PtrAuthKeyASDB then hw.sign ptr ptrauth_key_asdb discriminator
  else ptr

/-- Embedding of `PtrAuth_strip`: the `switch` over the four keys, with
`default: return ptr;`. -/
def PtrAuth_strip (hw : Hardware) (ptr key : Nat) : Nat :=
  if key = PtrAuthKeyASIA then hw.strip ptr ptrauth_key_asia
  else if key = PtrAuthKeyASIB then hw.strip ptr ptrauth_key_asib
  else if key = PtrAuthKeyASDA then hw.strip ptr ptrauth_key_asda
  else if key = PtrAuthKeyASDB then hw.strip ptr ptrauth_key_asdb
  else ptr

/-- Embedding of `PtrAuth_blend`. -/
def PtrAuth_blend (hw : Hardware) (ptr discriminator : Nat) : Nat :=
  hw.blend ptr discriminator

end PtrAuth

namespace CallAccessor

open PtrAuth

/-- Mirror of `struct MetadataResponse`. -/
structure MetadataResponse where
  Metadata : Nat
  State : Nat
  deriving DecidableEq, Repr

/-- The foreign accessors: the response produced by the function found at
an address when it is called, under the Swift calling convention, with a
request and the listed argument pointers. -/
abbrev Accessors := Nat → Nat → List Nat → MetadataResponse

/-- One indirect call made by an entry: the pointer value the call goes
through, the request and the argument pointers, in order. -/
structure Call where
  fnPtr : Nat
  request : Nat
  args : List Nat
  deriving DecidableEq, Repr

/-- What an entry yields: the response returned and the calls made. -/
structure Invoked where
  response : MetadataResponse
  calls : List Call
  deriving DecidableEq, Repr

/-- The address control reaches when a C function pointer value is called:
on arm64e the value is authenticated with the function-pointer key and
discriminator 0, elsewhere it is the value itself. -/
def branchTarget (arm64e : Bool) (hw : Hardware) (fnPtr : Nat) : Nat :=
  if arm64e then hw.auth fnPtr ptrauth_key_function_pointer 0 else fnPtr

/-- The statement guarded by `#if defined(__arm64e__)` at the head of each
entry: `ptr = ptrauth_sign_unauthenticated(ptr, ptrauth_key_function_pointer, 0);`. -/
def signIfArm64e (arm64e : Bool) (hw : Hardware) (ptr : Nat) : Nat :=
  if arm64e then hw.sign ptr ptrauth_key_function_pointer 0 else ptr

/-- The expression `((MetadataAccess *)ptr)(request, ...)`. -/
def callThrough (arm64e : Bool) (hw : Hardware) (code : Accessors)
    (ptr request : Nat) (args : List Nat) : Invoked :=
  ⟨code (branchTarget arm64e hw ptr) request args, [⟨ptr, request, args⟩]⟩

/-- A test accessor that echoes its inputs: the metadata field is the sum
of its own address and the weighted argument pointers, the state field
is the request. -/
def echoAccessor : Accessors :=
  fun addr request args =>
    ⟨addr + (args.enum.map (fun a => (a.1 + 1) * a.2)).sum, request⟩

/-- A toy signing scheme: the signature is kept above bit 56 and
authentication drops it. -/
def toyHardware : Hardware :=
  { sign := fun p k d => p % 2 ^ 56 + 2 ^ 56 * (1 + (k + d) % 127)
    auth := fun p _ _ => p % 2 ^ 56
    blend := fun p d => (p % 2 ^ 48) + 2 ^ 48 * (d % 2 ^ 16)
    strip := fun p _ => p % 2 ^ 56 }

def swift_section_callAccessor0 (arm64e : Bool) (hw : Hardware) (code : Accessors)
    (ptr request : Nat) : Invoked :=
  let ptr := signIfArm64e arm64e hw ptr
  callThrough arm64e hw code ptr request []

def swift_section_callAccessor1 (arm64e : Bool) (hw : Hardware) (code : Accessors)
    (ptr request arg0 : Nat) : Invoked :=
  let ptr := signIfArm64e arm64e hw ptr
  callThrough arm64e hw code ptr request [arg0]

def swift_section_callAccessor2 (arm64e : Bool) (hw : Hardware) (code : Accessors)
    (ptr request arg0 arg1 : Nat) : Invoked :=
  let ptr := signIfArm64e arm64e hw ptr
  callThrough arm64e hw code ptr request [arg0, arg1]

def swift_section_callAccessor3 (arm64e : Bool) (hw : Hardware) (code : Accessors)
    (ptr request arg0 arg1 arg2 : Nat) : Invoked :=
  let ptr := signIfArm64e arm64e hw ptr
  callThrough arm64e hw code ptr request [arg0, arg1, arg2]

def swift_section_callAccessor (arm64e : Bool) (hw : Hardware) (code : Accessors)
    (ptr request args : Nat) : Invoked :=
  let ptr := signIfArm64e arm64e hw ptr
  callThrough arm64e hw code ptr request [args]

end CallAccessor

namespace WitnessTable

open PtrAuth

/-! ## Record layout on the 64-bit target

The two records are given as their member lists, in declaration order,
and member offsets are computed by the C layout rule. -/

/-- A member of a C record: its name, size and alignment in bytes. -/
structure Field where
  name : String
  size : Nat
  align : Nat
  deriving DecidableEq, Repr

/-- Round an offset up to a multiple of an alignment. -/
def alignUp (offset align : Nat) : Nat :=
  (offset + align - 1) / align * align

/-- Offset of each member when the members are laid out one after the
other from the given offset on, each at the next multiple of its alignment. -/
def layoutFrom : Nat → List Field → List (String × Nat)
  | _, [] => []
  | offset, f :: fs =>
    let start := alignUp offset f.align
    (f.name, start) :: layoutFrom (start + f.size) fs

/-- The offset just past the last member. -/
def endFrom : Nat → List Field → Nat
  | offset, [] => offset
  | offset, f :: fs => endFrom (alignUp offset f.align + f.size) fs

/-- `_Alignof` of a record: the largest member alignment. -/
def alignOf (fs : List Field) : Nat :=
  fs.foldl (fun a f => max a f.align) 1

/-- `sizeof` of a record: the end of the last member rounded up to the
record alignment. -/
def sizeOf (fs : List Field) : Nat :=
  alignUp (endFrom 0 fs) (alignOf fs)

/-- `offsetof(record, member)`. -/
def offsetOf (fs : List Field) (member : String) : Nat :=
  ((layoutFrom 0 fs).lookup member).getD 0

/-- A function pointer member: 8 bytes, 8-aligned. -/
def fnPtrField (name : String) : Field := ⟨name, 8, 8⟩

/-- A `size_t` member: 8 bytes, 8-aligned. -/
def sizeTField (name : String) : Field := ⟨name, 8, 8⟩

/-- An `unsigned` member: 4 bytes, 4-aligned. -/
def unsignedField (name : String) : Field := ⟨name, 4, 4⟩

/-- Members of `struct ValueWitnessTable`, in declaration order. -/
def ValueWitnessTable : List Field :=
  [fnPtrField "initializeBufferWithCopyOfBuffer",
   fnPtrField "destroy",
   fnPtrField "initializeWithCopy",
   fnPtrField "assignWithCopy",
   fnPtrField "initializeWithTake",
   fnPtrField "assignWithTake",
   fnPtrField "getEnumTagSinglePayload",
   fnPtrField "storeEnumTagSinglePayload",
   sizeTField "size",
   sizeTField "stride",
   unsignedField "flags",
   unsignedField "extraInhabitantCount"]

/-- Members of `struct EnumValueWitnessTable`, in declaration order; the
first is the embedded `ValueWitnessTable base`. -/
def EnumValueWitnessTable : List Field :=
  [⟨"base", sizeOf ValueWitnessTable, alignOf ValueWitnessTable⟩,
   fnPtrField "getEnumTag",
   fnPtrField "destructiveProjectEnumData",
   fnPtrField "destructiveInjectEnumTag"]

/-- The discriminator given to a member by `VWT_FP(key)`. -/
def VWT_FP (member : String) : Nat :=
  if member = "initializeBufferWithCopyOfBuffer" then 0xda4a
  else if member = "destroy" then 0x04f8
  else if member = "initializeWithCopy" then 0xe3ba
  else if member = "assignWithCopy" then 0x8751
  else if member = "initializeWithTake" then 0x48d8
  else if member = "assignWithTake" then 0xefda
  else if member = "getEnumTagSinglePayload" then 0x60f0
  else if member = "storeEnumTagSinglePayload" then 0xa0d1
  else if member = "getEnumTag" then 0xa3b5
  else if member = "destructiveProjectEnumData" then 0x041d
  else if member = "destructiveInjectEnumTag" then 0xb2e4
  else 0

/-! ## Dispatch entries -/

/-- The foreign side of a dispatch: table memory and witness code. -/
structure Foreign where
  /-- The 8-byte word stored at a byte address. -/
  load : Nat → Nat
  /-- Value returned by the function found at an address for the listed
  arguments (ignored for a function returning `void`). -/
  call : Nat → List Nat → Nat
  /-- Value returned by a function declared to return `int`. -/
  callInt : Nat → List Nat → Int

/-- One indirect call through a table slot: the address of the slot, the
authenticated function address and the arguments, in order. -/
structure Invocation where
  slot : Nat
  target : Nat
  args : List Nat
  deriving DecidableEq, Repr

/-- What a dispatch entry yields: the value returned and the calls made. -/
structure Dispatch (α : Type) where
  value : α
  calls : List Invocation

/-- Reading the member `vwt->member` of a record laid out as `fs` at
address `vwt`: the slot address and the function address obtained by
authenticating the stored word with the function-pointer key and the
member's discriminator blended with the slot address, as
`__ptrauth_swift_value_witness_function_pointer` prescribes. -/
def member (hw : Hardware) (f : Foreign) (fs : List Field) (vwt : Nat)
    (name : String) : Nat × Nat :=
  let slot := vwt + offsetOf fs name
  (slot, hw.auth (f.load slot) ptrauth_key_function_pointer (hw.blend slot (VWT_FP name)))

/-- The function a table slot designates: the word stored at the slot
address, authenticated with the function-pointer key and the given
discriminator blended with the slot address. -/
def slotFunction (hw : Hardware) (f : Foreign) (slot disc : Nat) : Nat :=
  hw.auth (f.load slot) ptrauth_key_function_pointer (hw.blend slot disc)


/-- A foreign side whose `int`-returning witnesses all return -1. -/
def negativeTagForeign : Foreign :=
  { load := fun a => a
    call := fun target args => target + args.sum
    callInt := fun _ _ => -1 }

def swift_section_vwt_initializeBufferWithCopyOfBuffer (hw : Hardware) (f : Foreign)
    (ptr dest src metadata : Nat) : Dispatch Nat :=
  let vwt := member hw f ValueWitnessTable ptr "initializeBufferWithCopyOfBuffer"
  ⟨f.call vwt.2 [dest, src, metadata], [⟨vwt.1, vwt.2, [dest, src, metadata]⟩]⟩

def swift_section_vwt_destroy (hw : Hardware) (f : Foreign)
    (ptr value metadata : Nat) : Dispatch Unit :=
  let vwt := member hw f ValueWitnessTable ptr "destroy"
  ⟨(), [⟨vwt.1, vwt.2, [value, metadata]⟩]⟩

def swift_section_vwt_initializeWithCopy (hw : Hardware) (f : Foreign)
    (ptr dest src metadata : Nat) : Dispatch Nat :=
  let vwt := member hw f ValueWitnessTable ptr "initializeWithCopy"
  ⟨f.call vwt.2 [dest, src, metadata], [⟨vwt.1, vwt.2, [dest, src, metadata]⟩]⟩

def swift_section_vwt_assignWithCopy (hw : Hardware) (f : Foreign)
    (ptr dest src metadata : Nat) : Dispatch Nat :=
  let vwt := member hw f ValueWitnessTable ptr "assignWithCopy"
  ⟨f.call vwt.2 [dest, src, metadata], [⟨vwt.1, vwt.2, [dest, src, metadata]⟩]⟩

def swift_section_vwt_initializeWithTake (hw : Hardware) (f : Foreign)
    (ptr dest src metadata : Nat) : Dispatch Nat :=
  let vwt := member hw f ValueWitnessTable ptr "initializeWithTake"
  ⟨f.call vwt.2 [dest, src, metadata], [⟨vwt.1, vwt.2, [dest, src, metadata]⟩]⟩

def swift_section_vwt_assignWithTake (hw : Hardware) (f : Foreign)
    (ptr dest src metadata : Nat) : Dispatch Nat :=
  let vwt := member hw f ValueWitnessTable ptr "assignWithTake"
  ⟨f.call vwt.2 [dest, src, metadata], [⟨vwt.1, vwt.2, [dest, src, metadata]⟩]⟩

def swift_section_vwt_getEnumTagSinglePayload (hw : Hardware) (f : Foreign)
    (ptr inst numEmptyCases metadata : Nat) : Dispatch Nat :=
  let vwt := member hw f ValueWitnessTable ptr "getEnumTagSinglePayload"
  ⟨f.call vwt.2 [inst, numEmptyCases, metadata],
    [⟨vwt.1, vwt.2, [inst, numEmptyCases, metadata]⟩]⟩

def swift_section_vwt_storeEnumTagSinglePayload (hw : Hardware) (f : Foreign)
    (ptr inst tag numEmptyCases metadata : Nat) : Dispatch Unit :=
  let vwt := member hw f ValueWitnessTable ptr "storeEnumTagSinglePayload"
  ⟨(), [⟨vwt.1, vwt.2, [inst, tag, numEmptyCases, metadata]⟩]⟩

/-- The slot returns `int`; the entry returns `unsigned`, so the value is
converted modulo `2^32`. -/
def swift_section_vwt_getEnumTag (hw : Hardware) (f : Foreign)
    (ptr inst metadata : Nat) : Dispatch Nat :=
  let vwt := member hw f EnumValueWitnessTable ptr "getEnumTag"
  ⟨(f.callInt vwt.2 [inst, metadata] % (2 ^ 32 : Int)).toNat,
    [⟨vwt.1, vwt.2, [inst, metadata]⟩]⟩

def swift_section_vwt_destructiveProjectEnumData (hw : Hardware) (f : Foreign)
    (ptr inst metadata : Nat) : Dispatch Unit :=
  let vwt := member hw f EnumValueWitnessTable ptr "destructiveProjectEnumData"
  ⟨(), [⟨vwt.1, vwt.2, [inst, metadata]⟩]⟩

def swift_section_vwt_destructiveInjectEnumTag (hw : Hardware) (f : Foreign)
    (ptr inst tag metadata : Nat) : Dispatch Unit :=
  let vwt := member hw f EnumValueWitnessTable ptr "destructiveInjectEnumTag"
  ⟨(), [⟨vwt.1, vwt.2, [inst, tag, metadata]⟩]⟩

end WitnessTable

/-! # Theorems -/

namespace CDemangleTree

/-! ## The load check -/

theorem ensureLoaded_cached (h : Host) (g : Globals) (hg : g.sLib ≠ 0) :
    ensureLoaded h g = (true, g, []) := by
  simp [ensureLoaded, hg]

theorem openLoop_all_fail (h : Host) (ps : List String) (s : Nat)
    (hs : s = 0) (hfail : ∀ p ∈ ps, h.dlopen p = 0) :
    openLoop h ps s = (0, ps.map Event.dlopen) := by
  induction ps generalizing s with
  | nil => simp [openLoop, hs]
  | cons p ps ih =>
    have hp : h.dlopen p = 0 := hfail p (List.mem_cons_self p ps)
    have hrest : ∀ q ∈ ps, h.dlopen q = 0 := fun q hq => hfail q (List.mem_cons_of_mem p hq)
    simp [openLoop, hp, ih 0 rfl hrest]

theorem ensureLoaded_open_fail (h : Host) (g : Globals) (hg : g.sLib = 0)
    (hfail : ∀ p ∈ paths, h.dlopen p = 0) :
    ensureLoaded h g = (false, g, paths.map Event.dlopen) := by
  have ho := openLoop_all_fail h paths 0 rfl hfail
  have hgg : ({ g with sLib := 0 } : Globals) = g := by
    cases g; simp_all
  simp [ensureLoaded, hg, ho, hgg]

theorem loaded_of_ensureLoaded_true (h : Host) (g : Globals) (hg : g.sLib = 0)
    (hok : (ensureLoaded h g).1 = true) : Loaded (ensureLoaded h g).2.1 := by
  unfold ensureLoaded at hok ⊢
  simp only [hg, ne_eq, not_true_eq_false, ↓reduceIte] at hok ⊢
  split at hok
  · simp at hok
  · rename_i hopen
    simp only [hopen, ↓reduceIte]
    simp only [Bool.and_eq_true, decide_eq_true_eq] at hok
    exact ⟨hopen, hok.1.1.1, hok.1.1.2, hok.1.2, hok.2⟩

theorem ensureLoaded_true_of_loadedAfterCheck (h : Host) (g : Globals)
    (hl : LoadedAfterCheck h g) : (ensureLoaded h g).1 = true := by
  unfold LoadedAfterCheck Loaded at hl
  unfold ensureLoaded at hl ⊢
  by_cases hg : g.sLib ≠ 0
  · simp [hg]
  · simp only [hg, ↓reduceIte] at hl ⊢
    split
    · rename_i hz
      simp [hz] at hl
    · rename_i hz
      simp only [hz, ↓reduceIte] at hl
      simp [hl.2.1, hl.2.2.1, hl.2.2.2.1, hl.2.2.2.2]

theorem loadedAfterCheck_of_loaded (h : Host) (g : Globals) (hl : Loaded g) :
    LoadedAfterCheck h g := by
  unfold LoadedAfterCheck
  rw [ensureLoaded_cached h g hl.1]
  exact hl

/-! ## Absent name and unavailable library -/

/-- C3. Whatever the statics hold (unloaded, loaded, left by a failed
load), a call with a null `mangledName` returns null; it also makes no
foreign call and leaves the statics as they were. -/
theorem demangle_null_name (h : Host) (g : Globals) :
    (swift_demangle_getNodeTreeAsString h g 0).result = Result.null ∧
    (swift_demangle_getNodeTreeAsString h g 0).globals = g ∧
    (swift_demangle_getNodeTreeAsString h g 0).trace = [] := by
  simp [swift_demangle_getNodeTreeAsString]

theorem openLoop_trace_loader (h : Host) (ps : List String) (s : Nat) :
    ∀ e ∈ (openLoop h ps s).2, e.isLoaderCall = true := by
  induction ps generalizing s with
  | nil => intro e he; simp [openLoop] at he
  | cons p ps ih =>
    intro e he
    unfold openLoop at he
    by_cases hp : h.dlopen p = 0
    · simp only [hp, ne_eq, not_true_eq_false, ↓reduceIte, List.mem_cons] at he
      rcases he with he | he
      · subst he; rfl
      · exact ih 0 e he
    · simp only [ne_eq, hp, not_false_eq_true, ↓reduceIte, List.mem_singleton] at he
      subst he; rfl

theorem ensureLoaded_trace_loader (h : Host) (g : Globals) :
    ∀ e ∈ (ensureLoaded h g).2.2, e.isLoaderCall = true := by
  intro e he
  unfold ensureLoaded at he
  by_cases hg : g.sLib = 0
  · simp only [hg, ne_eq, not_true_eq_false, ↓reduceIte] at he
    split at he
    · exact openLoop_trace_loader h _ _ e he
    · simp only [List.mem_append, List.mem_cons, List.mem_singleton, List.not_mem_nil,
        or_false] at he
      rcases he with he | he | he | he | he
      · exact openLoop_trace_loader h _ _ e he
      all_goals (subst he; rfl)
  · simp [hg] at he

theorem loaderCall_not_resolvedCall (e : Event) (he : e.isLoaderCall = true) :
    e.isResolvedCall = false ∧ e.isCtxCall = false ∧ e.isRenderOrAlloc = false := by
  cases e <;> simp_all [Event.isLoaderCall, Event.isResolvedCall, Event.isCtxCall,
    Event.isRenderOrAlloc]

/-- A call whose load attempt fails returns null, and its only foreign calls
are loader calls. -/
theorem demangle_unavailable (h : Host) (g : Globals) (mangledName : Nat)
    (hfail : (ensureLoaded h g).1 = false) :
    (swift_demangle_getNodeTreeAsString h g mangledName).result = Result.null ∧
    ∀ e ∈ (swift_demangle_getNodeTreeAsString h g mangledName).trace,
      e.isLoaderCall = true := by
  by_cases hn : mangledName = 0
  · simp [swift_demangle_getNodeTreeAsString, hn]
  · simpa [swift_demangle_getNodeTreeAsString, hn, hfail] using ensureLoaded_trace_loader h g

/-- C1, evaluated where the code departs from it. In `partialHost` the
library opens but the render symbol does not resolve. The first call made
from the initial statics returns null and leaves `partialGlobals`; in
that reachable state `ensureLoaded` reports success although `sTreeStr`
is null, and the next call, made while the render symbol still does not
resolve, invokes the constructor, the resolve-to-node function and the
destructor. -/
theorem unavailable_library_is_invoked :
    partialHost.dlsym (partialHost.dlopen xcodeToolchainPath) symTreeStr = 0 ∧
    swift_demangle_getNodeTreeAsString partialHost Globals.init 100 =
      ⟨Result.null, partialGlobals,
        [Event.dlopen xcodeToolchainPath,
         Event.dlsym 4096 symCtxCtor, Event.dlsym 4096 symCtxDtor,
         Event.dlsym 4096 symDemangle, Event.dlsym 4096 symTreeStr]⟩ ∧
    partialGlobals.sTreeStr = 0 ∧
    (ensureLoaded partialHost partialGlobals).1 = true ∧
    swift_demangle_getNodeTreeAsString partialHost partialGlobals 100 =
      ⟨Result.null, partialGlobals,
        [Event.ctxCtor 8222 65536, Event.demangle 8258 65536 ⟨100, 1⟩,
         Event.ctxDtor 8222 65536]⟩ := by
  refine ⟨by decide, by decide, by decide, by decide, by decide⟩

/-- C2, evaluated where the code departs from it. `partialGlobals` is left
behind by a failed load attempt (library opened, render symbol missing).
The next call is made in `completeHost`, where a full load attempt would
succeed (from the initial statics it does and the call returns `Si`);
instead `ensureLoaded` returns from the cached handle with no `dlopen`
and no `dlsym`, `sTreeStr` stays null, and the call faults on it. -/
theorem failed_symbol_resolution_is_cached :
    (swift_demangle_getNodeTreeAsString partialHost Globals.init 100).globals = partialGlobals ∧
    (ensureLoaded partialHost Globals.init).1 = false ∧
    ensureLoaded completeHost partialGlobals = (true, partialGlobals, []) ∧
    swift_demangle_getNodeTreeAsString completeHost partialGlobals 100 =
      ⟨Result.fault, partialGlobals,
        [Event.ctxCtor 8222 65536, Event.demangle 8258 65536 ⟨100, 5⟩]⟩ ∧
    (swift_demangle_getNodeTreeAsString completeHost Globals.init 100).result =
      Result.buffer 12288 [83, 105, 0] := by
  refine ⟨by decide, by decide, by decide, by decide, by decide⟩

/-! ## Calls made with the library loaded -/

/-- The three shapes of a call that passes the name and load checks with
all four addresses resolved: a null node, a failed allocation, a copied
string. -/
theorem demangle_loaded (h : Host) (g : Globals) (mangledName : Nat)
    (hn : mangledName ≠ 0) (hl : LoadedAfterCheck h g) :
    swift_demangle_getNodeTreeAsString h g mangledName =
      if nodeOf h g mangledName = 0 then
        ⟨Result.null, (ensureLoaded h g).2.1,
          (ensureLoaded h g).2.2 ++
            [Event.ctxCtor (ensureLoaded h g).2.1.sCtxCtor h.frame,
             Event.demangle (ensureLoaded h g).2.1.sDemangle h.frame (viewOf h mangledName),
             Event.ctxDtor (ensureLoaded h g).2.1.sCtxDtor h.frame]⟩
      else if h.malloc ((renderOf h g mangledName).length + 1) = 0 then
        ⟨Result.fault, (ensureLoaded h g).2.1,
          (ensureLoaded h g).2.2 ++
            [Event.ctxCtor (ensureLoaded h g).2.1.sCtxCtor h.frame,
             Event.demangle (ensureLoaded h g).2.1.sDemangle h.frame (viewOf h mangledName),
             Event.treeStr (ensureLoaded h g).2.1.sTreeStr (nodeOf h g mangledName),
             Event.malloc ((renderOf h g mangledName).length + 1)]⟩
      else
        ⟨Result.buffer (h.malloc ((renderOf h g mangledName).length + 1))
            ((c_str (renderOf h g mangledName)).take ((renderOf h g mangledName).length + 1)),
          (ensureLoaded h g).2.1,
          (ensureLoaded h g).2.2 ++
            [Event.ctxCtor (ensureLoaded h g).2.1.sCtxCtor h.frame,
             Event.demangle (ensureLoaded h g).2.1.sDemangle h.frame (viewOf h mangledName),
             Event.treeStr (ensureLoaded h g).2.1.sTreeStr (nodeOf h g mangledName),
             Event.malloc ((renderOf h g mangledName).length + 1),
             Event.memcpy (h.malloc ((renderOf h g mangledName).length + 1))
               ((c_str (renderOf h g mangledName)).take ((renderOf h g mangledName).length + 1)),
             Event.ctxDtor (ensureLoaded h g).2.1.sCtxDtor h.frame]⟩ := by
  have hok := ensureLoaded_true_of_loadedAfterCheck h g hl
  obtain ⟨-, h1, h2, h3, h4⟩ := hl
  unfold swift_demangle_getNodeTreeAsString
  simp only [hn, hok, h1, h2, h3, h4, ↓reduceIte, Bool.true_eq_false, ne_eq]
  by_cases hnode : nodeOf h g mangledName = 0
  · have hnode' := hnode
    unfold nodeOf viewOf at hnode'
    simp only [hnode, hnode', ↓reduceIte, not_true_eq_false, viewOf, List.append_assoc,
      List.singleton_append, List.cons_append, List.nil_append]
  · have hnode' := hnode
    unfold nodeOf viewOf at hnode'
    by_cases hm : h.malloc ((renderOf h g mangledName).length + 1) = 0
    · have hm' := hm
      unfold renderOf nodeOf viewOf at hm'
      simp only [hnode, hnode', hm, hm', ↓reduceIte, not_false_eq_true, viewOf, nodeOf,
        renderOf, List.append_assoc, List.singleton_append, List.cons_append, List.nil_append]
    · have hm' := hm
      unfold renderOf nodeOf viewOf at hm'
      simp only [hnode, hnode', hm, hm', ↓reduceIte, not_false_eq_true, viewOf, nodeOf,
        renderOf, List.append_assoc, List.singleton_append, List.cons_append, List.nil_append]

theorem filter_after_loader_calls (p : Event → Bool) (t0 rest : List Event)
    (ht0 : ∀ e ∈ t0, e.isLoaderCall = true)
    (hp : ∀ e, e.isLoaderCall = true → p e = false) :
    (t0 ++ rest).filter p = rest.filter p := by
  have hnil : t0.filter p = [] := by
    rw [List.filter_eq_nil_iff]
    intro e he
    simp [hp e (ht0 e he)]
  rw [List.filter_append, hnil, List.nil_append]

/-- C4. For a present name, with the library loaded once the load check has
run, a non-null node returned for the view `{mangledName, strlen(mangledName)}`
and a successful allocation, the call returns the buffer obtained from the
single `malloc(size + 1)` of the call; the buffer holds `size + 1` bytes,
its first `size` bytes are the bytes of the rendered string and its last
byte is 0, where `size` is the length of the rendered string. -/
theorem demangle_returns_rendered_copy (h : Host) (g : Globals) (mangledName : Nat)
    (hn : mangledName ≠ 0) (hl : LoadedAfterCheck h g)
    (hnode : nodeOf h g mangledName ≠ 0)
    (hm : h.malloc ((renderOf h g mangledName).length + 1) ≠ 0) :
    ∃ bytes : List Nat,
      (swift_demangle_getNodeTreeAsString h g mangledName).result =
        Result.buffer (h.malloc ((renderOf h g mangledName).length + 1)) bytes ∧
      (swift_demangle_getNodeTreeAsString h g mangledName).trace.filter
          (fun e => e matches Event.malloc _) =
        [Event.malloc ((renderOf h g mangledName).length + 1)] ∧
      Event.demangle (ensureLoaded h g).2.1.sDemangle h.frame
          ⟨mangledName, strlen (h.mem mangledName)⟩ ∈
        (swift_demangle_getNodeTreeAsString h g mangledName).trace ∧
      bytes.length = (renderOf h g mangledName).length + 1 ∧
      bytes.take (renderOf h g mangledName).length = renderOf h g mangledName ∧
      bytes.getLast? = some 0 := by
  refine ⟨(c_str (renderOf h g mangledName)).take ((renderOf h g mangledName).length + 1),
    ?_, ?_, ?_, ?_, ?_, ?_⟩
  · rw [demangle_loaded h g mangledName hn hl]
    simp only [hnode, hm, ↓reduceIte]
  · rw [demangle_loaded h g mangledName hn hl]
    simp only [hnode, hm, ↓reduceIte]
    rw [filter_after_loader_calls _ _ _ (ensureLoaded_trace_loader h g)]
    · simp [List.filter]
    · intro e he
      cases e <;> simp_all [Event.isLoaderCall]
  · rw [demangle_loaded h g mangledName hn hl]
    simp [hnode, hm, viewOf]
  · simp [c_str]
  · simp [c_str, List.take_append_eq_append_take]
  · simp [c_str, List.take_append_eq_append_take]

/-- Witness of C4: the first call in `completeHost`, which loads the library
and returns the three bytes `S`, `i`, 0. -/
theorem demangle_returns_rendered_copy_witness :
    (100 : Nat) ≠ 0 ∧ LoadedAfterCheck completeHost Globals.init ∧
    nodeOf completeHost Globals.init 100 ≠ 0 ∧
    completeHost.malloc ((renderOf completeHost Globals.init 100).length + 1) ≠ 0 ∧
    ∃ bytes : List Nat,
      (swift_demangle_getNodeTreeAsString completeHost Globals.init 100).result =
        Result.buffer
          (completeHost.malloc ((renderOf completeHost Globals.init 100).length + 1)) bytes ∧
      (swift_demangle_getNodeTreeAsString completeHost Globals.init 100).trace.filter
          (fun e => e matches Event.malloc _) =
        [Event.malloc ((renderOf completeHost Globals.init 100).length + 1)] ∧
      Event.demangle (ensureLoaded completeHost Globals.init).2.1.sDemangle completeHost.frame
          ⟨100, strlen (completeHost.mem 100)⟩ ∈
        (swift_demangle_getNodeTreeAsString completeHost Globals.init 100).trace ∧
      bytes.length = (renderOf completeHost Globals.init 100).length + 1 ∧
      bytes.take (renderOf completeHost Globals.init 100).length =
        renderOf completeHost Globals.init 100 ∧
      bytes.getLast? = some 0 :=
  ⟨by decide, by decide, by decide, by decide,
    demangle_returns_rendered_copy completeHost Globals.init 100
      (by decide) (by decide) (by decide) (by decide)⟩

/-- C5. For a present name, with the library loaded once the load check has
run and a null node returned, the call returns null; besides loader calls
its foreign calls are the constructor, the resolve-to-node function and
the destructor, so the render function is not called and nothing is
allocated; and the value returned is the one every call with a present
name returns when its load check fails. -/
theorem demangle_null_node (h : Host) (g : Globals) (mangledName : Nat)
    (hn : mangledName ≠ 0) (hl : LoadedAfterCheck h g)
    (hnode : nodeOf h g mangledName = 0) :
    (swift_demangle_getNodeTreeAsString h g mangledName).result = Result.null ∧
    (∀ e ∈ (swift_demangle_getNodeTreeAsString h g mangledName).trace,
      e.isRenderOrAlloc = false) ∧
    (∀ (h' : Host) (g' : Globals) (name' : Nat), name' ≠ 0 →
      (ensureLoaded h' g').1 = false →
      (swift_demangle_getNodeTreeAsString h' g' name').result =
        (swift_demangle_getNodeTreeAsString h g mangledName).result) := by
  rw [demangle_loaded h g mangledName hn hl]
  simp only [hnode, ↓reduceIte]
  refine ⟨trivial, ?_, ?_⟩
  · intro e he
    simp only [List.mem_append, List.mem_cons, List.mem_singleton, List.not_mem_nil,
      or_false] at he
    rcases he with he | he | he | he
    · exact (loaderCall_not_resolvedCall e (ensureLoaded_trace_loader h g e he)).2.2
    all_goals (subst he; rfl)
  · intro h' g' name' _ hfail
    exact (demangle_unavailable h' g' name' hfail).1

/-- Witness of C5: a call in `noNodeHost` with the library already loaded. -/
theorem demangle_null_node_witness :
    (100 : Nat) ≠ 0 ∧ LoadedAfterCheck noNodeHost completeGlobals ∧
    nodeOf noNodeHost completeGlobals 100 = 0 ∧
    (swift_demangle_getNodeTreeAsString noNodeHost completeGlobals 100).result = Result.null ∧
    (swift_demangle_getNodeTreeAsString missingHost Globals.init 100).result =
      (swift_demangle_getNodeTreeAsString noNodeHost completeGlobals 100).result :=
  ⟨by decide, by decide, by decide,
    (demangle_null_node noNodeHost completeGlobals 100 (by decide) (by decide) (by decide)).1,
    (demangle_null_node noNodeHost completeGlobals 100 (by decide) (by decide) (by decide)).2.2
      missingHost Globals.init 100 (by decide) (by decide)⟩

/-! ## Context lifetime -/

/-- A call returns (it does not fault) whenever all four addresses are
resolved once the load check has run and the allocation, if one is
made, succeeds. -/
theorem demangle_returns (h : Host) (g : Globals) (mangledName : Nat)
    (hl : LoadedAfterCheck h g)
    (hm : nodeOf h g mangledName ≠ 0 →
      h.malloc ((renderOf h g mangledName).length + 1) ≠ 0) :
    (swift_demangle_getNodeTreeAsString h g mangledName).result ≠ Result.fault := by
  by_cases hn : mangledName = 0
  · simp [swift_demangle_getNodeTreeAsString, hn]
  · rw [demangle_loaded h g mangledName hn hl]
    by_cases hnode : nodeOf h g mangledName = 0
    · simp [hnode]
    · simp [hnode, hm hnode]

/-- Context calls of a call that runs to its return: if it returns early
(null name or failed load check) neither the constructor nor the destructor
is called; if it gets past both checks, its constructor and destructor calls
are exactly one constructor call followed by one destructor call, both on
the address of the local `ctx`, the destructor call is the last foreign
call, and the calls through resolved pointers are constructor,
resolve-to-node, (render when the node is non-null,) destructor, in that
order. -/
theorem ctx_constructed_and_destructed_once (h : Host) (g : Globals) (mangledName : Nat)
    (hdef : (swift_demangle_getNodeTreeAsString h g mangledName).result ≠ Result.fault) :
    (mangledName = 0 ∨ (ensureLoaded h g).1 = false →
      (swift_demangle_getNodeTreeAsString h g mangledName).trace.filter Event.isCtxCall = []) ∧
    (mangledName ≠ 0 → (ensureLoaded h g).1 = true →
      (swift_demangle_getNodeTreeAsString h g mangledName).trace.filter Event.isCtxCall =
        [Event.ctxCtor (ensureLoaded h g).2.1.sCtxCtor h.frame,
         Event.ctxDtor (ensureLoaded h g).2.1.sCtxDtor h.frame] ∧
      (swift_demangle_getNodeTreeAsString h g mangledName).trace.getLast? =
        some (Event.ctxDtor (ensureLoaded h g).2.1.sCtxDtor h.frame) ∧
      (swift_demangle_getNodeTreeAsString h g mangledName).trace.filter Event.isResolvedCall =
        if nodeOf h g mangledName = 0 then
          [Event.ctxCtor (ensureLoaded h g).2.1.sCtxCtor h.frame,
           Event.demangle (ensureLoaded h g).2.1.sDemangle h.frame (viewOf h mangledName),
           Event.ctxDtor (ensureLoaded h g).2.1.sCtxDtor h.frame]
        else
          [Event.ctxCtor (ensureLoaded h g).2.1.sCtxCtor h.frame,
           Event.demangle (ensureLoaded h g).2.1.sDemangle h.frame (viewOf h mangledName),
           Event.treeStr (ensureLoaded h g).2.1.sTreeStr (nodeOf h g mangledName),
           Event.ctxDtor (ensureLoaded h g).2.1.sCtxDtor h.frame]) := by
  have hctx : (ensureLoaded h g).2.2.filter Event.isCtxCall = [] := by
    rw [List.filter_eq_nil_iff]
    intro e he
    simp [(loaderCall_not_resolvedCall e (ensureLoaded_trace_loader h g e he)).2.1]
  have hres : (ensureLoaded h g).2.2.filter Event.isResolvedCall = [] := by
    rw [List.filter_eq_nil_iff]
    intro e he
    simp [(loaderCall_not_resolvedCall e (ensureLoaded_trace_loader h g e he)).1]
  refine ⟨?_, ?_⟩
  · rintro (hn | hfail)
    · simp [swift_demangle_getNodeTreeAsString, hn]
    · by_cases hn : mangledName = 0
      · simp [swift_demangle_getNodeTreeAsString, hn]
      · simp [swift_demangle_getNodeTreeAsString, hn, hfail, hctx]
  · intro hn hok
    unfold swift_demangle_getNodeTreeAsString at hdef ⊢
    unfold nodeOf viewOf
    simp only [hn, hok, ↓reduceIte, Bool.true_eq_false, ne_eq] at hdef ⊢
    split_ifs at hdef ⊢ <;>
      simp_all [List.filter_append, List.filter, Event.isCtxCall, Event.isResolvedCall,
        List.getLast?_append, List.getLast?_cons_cons]

/-- The first call in `completeHost` gets past both checks, returns a buffer
and pairs the constructor with the destructor. -/
theorem ctx_constructed_and_destructed_once_witness :
    (swift_demangle_getNodeTreeAsString completeHost Globals.init 100).result ≠ Result.fault ∧
    (swift_demangle_getNodeTreeAsString completeHost Globals.init 100).trace.filter
        Event.isCtxCall =
      [Event.ctxCtor (ensureLoaded completeHost Globals.init).2.1.sCtxCtor completeHost.frame,
       Event.ctxDtor (ensureLoaded completeHost Globals.init).2.1.sCtxDtor completeHost.frame] ∧
    (swift_demangle_getNodeTreeAsString completeHost Globals.init 100).trace.getLast? =
      some (Event.ctxDtor (ensureLoaded completeHost Globals.init).2.1.sCtxDtor
        completeHost.frame) :=
  ⟨by decide,
    ((ctx_constructed_and_destructed_once completeHost Globals.init 100 (by decide)).2
      (by decide) (by decide)).1,
    ((ctx_constructed_and_destructed_once completeHost Globals.init 100 (by decide)).2
      (by decide) (by decide)).2.1⟩

/-- C6, evaluated where the code departs from it. Two calls get past the
name check and the load check, call the constructor once and never call
the destructor. In the first, made in `completeHost` from the statics
`partialGlobals` that a call in `partialHost` leaves behind, `ensureLoaded`
returns true from the cached handle and the call stops at the null
`sTreeStr`. In the second, made in `noMemoryHost` from the initial
statics, the load succeeds, `malloc` returns null and the call stops at
the `memcpy` into it; its last foreign call is `malloc`, not the
destructor. -/
theorem destructor_not_reached :
    (swift_demangle_getNodeTreeAsString partialHost Globals.init 100).globals = partialGlobals ∧
    (100 : Nat) ≠ 0 ∧
    (ensureLoaded completeHost partialGlobals).1 = true ∧
    (swift_demangle_getNodeTreeAsString completeHost partialGlobals 100).result = Result.fault ∧
    (swift_demangle_getNodeTreeAsString completeHost partialGlobals 100).trace.filter
        Event.isCtxCall = [Event.ctxCtor 8222 65536] ∧
    (ensureLoaded noMemoryHost Globals.init).1 = true ∧
    Loaded (ensureLoaded noMemoryHost Globals.init).2.1 ∧
    (swift_demangle_getNodeTreeAsString noMemoryHost Globals.init 100).result = Result.fault ∧
    (swift_demangle_getNodeTreeAsString noMemoryHost Globals.init 100).trace.filter
        Event.isCtxCall = [Event.ctxCtor 8222 65536] ∧
    (swift_demangle_getNodeTreeAsString noMemoryHost Globals.init 100).trace.getLast? =
      some (Event.malloc 3) := by
  refine ⟨by decide, by decide, by decide, by decide, by decide, by decide, by decide,
    by decide, by decide, by decide⟩

/-! ## Reuse of the loaded state, retry of a failed open -/

theorem demangle_from_loaded (h : Host) (g : Globals) (mangledName : Nat) (hl : Loaded g) :
    (swift_demangle_getNodeTreeAsString h g mangledName).globals = g ∧
    ∀ e ∈ (swift_demangle_getNodeTreeAsString h g mangledName).trace,
      e.isLoaderCall = false := by
  by_cases hn : mangledName = 0
  · simp [swift_demangle_getNodeTreeAsString, hn]
  · rw [demangle_loaded h g mangledName hn (loadedAfterCheck_of_loaded h g hl)]
    rw [ensureLoaded_cached h g hl.1]
    split_ifs <;> simp [Event.isLoaderCall]

theorem runCalls_from_loaded (g : Globals) (hl : Loaded g) (calls : List (Host × Nat)) :
    ∀ r ∈ runCalls g calls, r.globals = g ∧ ∀ e ∈ r.trace, e.isLoaderCall = false := by
  induction calls with
  | nil => intro r hr; simp [runCalls] at hr
  | cons c cs ih =>
    intro r hr
    have hc := demangle_from_loaded c.1 g c.2 hl
    unfold runCalls at hr
    simp only [List.mem_cons] at hr
    rcases hr with hr | hr
    · subst hr; exact hc
    · split_ifs at hr
      · simp at hr
      · rw [hc.1] at hr
        exact ih r hr

/-- C7. With the library loaded (handle and four addresses non-null):
`ensureLoaded` returns true, makes no `dlopen` or `dlsym` call and leaves
the statics unchanged; in any sequence of later calls every call leaves
the statics unchanged and makes no loader call; and two sequential calls
with the same name, run against the same deterministic library, agree on
returning null and return buffers with equal contents. -/
theorem loaded_state_is_reused (g : Globals) (hl : Loaded g) :
    (∀ h : Host, ensureLoaded h g = (true, g, [])) ∧
    (∀ calls : List (Host × Nat), ∀ r ∈ runCalls g calls,
      r.globals = g ∧ ∀ e ∈ r.trace, e.isLoaderCall = false) ∧
    (∀ (h1 h2 : Host) (mangledName : Nat), SameLibrary h1 h2 mangledName →
      ((swift_demangle_getNodeTreeAsString h1 g mangledName).result = Result.null ↔
        (swift_demangle_getNodeTreeAsString h2
          (swift_demangle_getNodeTreeAsString h1 g mangledName).globals
          mangledName).result = Result.null) ∧
      ∀ p1 b1 p2 b2,
        (swift_demangle_getNodeTreeAsString h1 g mangledName).result = Result.buffer p1 b1 →
        (swift_demangle_getNodeTreeAsString h2
          (swift_demangle_getNodeTreeAsString h1 g mangledName).globals
          mangledName).result = Result.buffer p2 b2 →
        b1 = b2) := by
  refine ⟨fun h => ensureLoaded_cached h g hl.1, runCalls_from_loaded g hl, ?_⟩
  intro h1 h2 mangledName hsame
  rw [(demangle_from_loaded h1 g mangledName hl).1]
  by_cases hn : mangledName = 0
  · simp [swift_demangle_getNodeTreeAsString, hn]
  · obtain ⟨hc, hd, ht, hmem⟩ := hsame
    have hnode : nodeOf h1 g mangledName = nodeOf h2 g mangledName := by
      simp [nodeOf, viewOf, ensureLoaded_cached _ g hl.1, hc, hd, hmem]
    have hrender : renderOf h1 g mangledName = renderOf h2 g mangledName := by
      simp [renderOf, hnode, ensureLoaded_cached _ g hl.1, ht]
    rw [demangle_loaded h1 g mangledName hn (loadedAfterCheck_of_loaded h1 g hl),
      demangle_loaded h2 g mangledName hn (loadedAfterCheck_of_loaded h2 g hl),
      ← hnode, ← hrender]
    constructor
    · split_ifs <;> simp
    · intro p1 b1 p2 b2
      split_ifs <;> simp
      rintro - rfl - rfl
      rfl

/-- Witness of C7: from `completeGlobals`, a call in `completeHost` followed by
a call in `laterHost` (same library, another allocator and frame). -/
theorem loaded_state_is_reused_witness :
    Loaded completeGlobals ∧
    ensureLoaded missingHost completeGlobals = (true, completeGlobals, []) ∧
    (∀ r ∈ runCalls completeGlobals [(completeHost, 100), (missingHost, 0), (laterHost, 100)],
      r.globals = completeGlobals ∧ ∀ e ∈ r.trace, e.isLoaderCall = false) ∧
    (∀ p1 b1 p2 b2,
      (swift_demangle_getNodeTreeAsString completeHost completeGlobals 100).result =
        Result.buffer p1 b1 →
      (swift_demangle_getNodeTreeAsString laterHost
        (swift_demangle_getNodeTreeAsString completeHost completeGlobals 100).globals
        100).result = Result.buffer p2 b2 →
      b1 = b2) :=
  ⟨by decide,
    (loaded_state_is_reused completeGlobals (by decide)).1 missingHost,
    (loaded_state_is_reused completeGlobals (by decide)).2.1 _,
    ((loaded_state_is_reused completeGlobals (by decide)).2.2 completeHost laterHost 100
      ⟨rfl, rfl, rfl, rfl⟩).2⟩

/-- C8. From statics with a null handle, in any number of consecutive calls
with present names made while no candidate location opens, every call
returns null, attempts `dlopen` on the toolchain path and then on the bare
name and makes no other foreign call, and leaves the statics as they
were, the handle null. -/
theorem repeated_open_failure (g : Globals) (hg : g.sLib = 0) (calls : List (Host × Nat))
    (hcalls : ∀ c ∈ calls, c.2 ≠ 0 ∧ ∀ p ∈ paths, c.1.dlopen p = 0) :
    runCalls g calls =
      calls.map (fun _ =>
        ⟨Result.null, g, [Event.dlopen xcodeToolchainPath, Event.dlopen bareLibraryName]⟩) := by
  induction calls with
  | nil => simp [runCalls]
  | cons c cs ih =>
    have hc := hcalls c (List.mem_cons_self c cs)
    have hrest : ∀ d ∈ cs, d.2 ≠ 0 ∧ ∀ p ∈ paths, d.1.dlopen p = 0 :=
      fun d hd => hcalls d (List.mem_cons_of_mem c hd)
    have hload := ensureLoaded_open_fail c.1 g hg hc.2
    have hrun : swift_demangle_getNodeTreeAsString c.1 g c.2 =
        ⟨Result.null, g, [Event.dlopen xcodeToolchainPath, Event.dlopen bareLibraryName]⟩ := by
      simp [swift_demangle_getNodeTreeAsString, hc.1, hload, paths]
    simp only [runCalls, hrun, List.map_cons, reduceCtorEq, ↓reduceIte]
    rw [ih hrest]

/-- Witness of C8: three consecutive calls from the initial statics in a host
where nothing opens. -/
theorem repeated_open_failure_witness :
    Globals.init.sLib = 0 ∧
    (∀ c ∈ [(missingHost, 100), (missingHost, 200), (missingHost, 100)],
      c.2 ≠ 0 ∧ ∀ p ∈ paths, c.1.dlopen p = 0) ∧
    runCalls Globals.init [(missingHost, 100), (missingHost, 200), (missingHost, 100)] =
      [(missingHost, 100), (missingHost, 200), (missingHost, 100)].map (fun _ =>
        ⟨Result.null, Globals.init,
          [Event.dlopen xcodeToolchainPath, Event.dlopen bareLibraryName]⟩) :=
  ⟨rfl, by simp [missingHost],
    repeated_open_failure Globals.init rfl _ (by simp [missingHost])⟩

end CDemangleTree

namespace CallAccessor

open PtrAuth

/-- C9. When the pointer handed to the call authenticates to `ptr` (on
arm64e, where it has been signed; elsewhere it is `ptr` itself), each of
the five entries returns the response the function at `ptr` produces for
`(request)`, `(request, arg0)`, `(request, arg0, arg1)`,
`(request, arg0, arg1, arg2)` and `(request, args)` respectively, both
fields included, and makes that one call only. -/
theorem accessor_returns_target_response (arm64e : Bool) (hw : Hardware) (code : Accessors)
    (ptr request arg0 arg1 arg2 args : Nat)
    (hauth : arm64e = true →
      hw.auth (hw.sign ptr ptrauth_key_function_pointer 0) ptrauth_key_function_pointer 0 = ptr) :
    (swift_section_callAccessor0 arm64e hw code ptr request).response = code ptr request [] ∧
    (swift_section_callAccessor1 arm64e hw code ptr request arg0).response =
      code ptr request [arg0] ∧
    (swift_section_callAccessor2 arm64e hw code ptr request arg0 arg1).response =
      code ptr request [arg0, arg1] ∧
    (swift_section_callAccessor3 arm64e hw code ptr request arg0 arg1 arg2).response =
      code ptr request [arg0, arg1, arg2] ∧
    (swift_section_callAccessor arm64e hw code ptr request args).response =
      code ptr request [args] ∧
    (swift_section_callAccessor0 arm64e hw code ptr request).calls.map
        (fun c => (c.request, c.args)) = [(request, [])] ∧
    (swift_section_callAccessor1 arm64e hw code ptr request arg0).calls.map
        (fun c => (c.request, c.args)) = [(request, [arg0])] ∧
    (swift_section_callAccessor2 arm64e hw code ptr request arg0 arg1).calls.map
        (fun c => (c.request, c.args)) = [(request, [arg0, arg1])] ∧
    (swift_section_callAccessor3 arm64e hw code ptr request arg0 arg1 arg2).calls.map
        (fun c => (c.request, c.args)) = [(request, [arg0, arg1, arg2])] ∧
    (swift_section_callAccessor arm64e hw code ptr request args).calls.map
        (fun c => (c.request, c.args)) = [(request, [args])] := by
  have htarget : branchTarget arm64e hw (signIfArm64e arm64e hw ptr) = ptr := by
    cases arm64e
    · simp [branchTarget, signIfArm64e]
    · simpa [branchTarget, signIfArm64e] using hauth rfl
  simp [swift_section_callAccessor0, swift_section_callAccessor1, swift_section_callAccessor2,
    swift_section_callAccessor3, swift_section_callAccessor, callThrough, htarget]

/-- Witness of C9: the echoing accessor at address 4096 on arm64e with the toy
signing scheme. -/
theorem accessor_returns_target_response_witness :
    ((true = true →
      toyHardware.auth (toyHardware.sign 4096 ptrauth_key_function_pointer 0)
        ptrauth_key_function_pointer 0 = 4096)) ∧
    (swift_section_callAccessor3 true toyHardware echoAccessor 4096 255 10 20 30).response =
      ⟨4236, 255⟩ ∧
    (swift_section_callAccessor true toyHardware echoAccessor 4096 255 10).response =
      ⟨4106, 255⟩ :=
  ⟨by decide,
    (accessor_returns_target_response true toyHardware echoAccessor 4096 255 10 20 30 10
      (by decide)).2.2.2.1,
    (accessor_returns_target_response true toyHardware echoAccessor 4096 255 10 20 30 10
      (by decide)).2.2.2.2.1⟩

end CallAccessor

namespace WitnessTable

open PtrAuth

theorem member_base (hw : Hardware) (f : Foreign) (vwt : Nat) (name : String) (off : Nat)
    (hoff : offsetOf ValueWitnessTable name = off) :
    member hw f ValueWitnessTable vwt name =
      (vwt + off, slotFunction hw f (vwt + off) (VWT_FP name)) := by
  simp [member, slotFunction, hoff]

theorem member_enum (hw : Hardware) (f : Foreign) (vwt : Nat) (name : String) (off : Nat)
    (hoff : offsetOf EnumValueWitnessTable name = off) :
    member hw f EnumValueWitnessTable vwt name =
      (vwt + off, slotFunction hw f (vwt + off) (VWT_FP name)) := by
  simp [member, slotFunction, hoff]

/-- C10. Each of the eleven dispatch entries makes exactly one call, through
the slot at its fixed byte offset from the table address: 0, 8, ..., 56
for the eight base entries in their declaration order, and 88, 96, 104
for `getEnumTag`, `destructiveProjectEnumData` and
`destructiveInjectEnumTag`, which follow `size` (64), `stride` (72),
`flags` (80) and `extraInhabitantCount` (84); the function called is the one
that slot designates and it receives the operation's arguments
unmodified and in order. -/
theorem dispatch_calls_fixed_slot (hw : Hardware) (f : Foreign)
    (ptr dest src value inst tag numEmptyCases metadata : Nat) :
    (swift_section_vwt_initializeBufferWithCopyOfBuffer hw f ptr dest src metadata).calls =
      [⟨ptr + 0, slotFunction hw f (ptr + 0) 0xda4a, [dest, src, metadata]⟩] ∧
    (swift_section_vwt_destroy hw f ptr value metadata).calls =
      [⟨ptr + 8, slotFunction hw f (ptr + 8) 0x04f8, [value, metadata]⟩] ∧
    (swift_section_vwt_initializeWithCopy hw f ptr dest src metadata).calls =
      [⟨ptr + 16, slotFunction hw f (ptr + 16) 0xe3ba, [dest, src, metadata]⟩] ∧
    (swift_section_vwt_assignWithCopy hw f ptr dest src metadata).calls =
      [⟨ptr + 24, slotFunction hw f (ptr + 24) 0x8751, [dest, src, metadata]⟩] ∧
    (swift_section_vwt_initializeWithTake hw f ptr dest src metadata).calls =
      [⟨ptr + 32, slotFunction hw f (ptr + 32) 0x48d8, [dest, src, metadata]⟩] ∧
    (swift_section_vwt_assignWithTake hw f ptr dest src metadata).calls =
      [⟨ptr + 40, slotFunction hw f (ptr + 40) 0xefda, [dest, src, metadata]⟩] ∧
    (swift_section_vwt_getEnumTagSinglePayload hw f ptr inst numEmptyCases metadata).calls =
      [⟨ptr + 48, slotFunction hw f (ptr + 48) 0x60f0, [inst, numEmptyCases, metadata]⟩] ∧
    (swift_section_vwt_storeEnumTagSinglePayload hw f ptr inst tag numEmptyCases metadata).calls =
      [⟨ptr + 56, slotFunction hw f (ptr + 56) 0xa0d1,
        [inst, tag, numEmptyCases, metadata]⟩] ∧
    (swift_section_vwt_getEnumTag hw f ptr inst metadata).calls =
      [⟨ptr + 88, slotFunction hw f (ptr + 88) 0xa3b5, [inst, metadata]⟩] ∧
    (swift_section_vwt_destructiveProjectEnumData hw f ptr inst metadata).calls =
      [⟨ptr + 96, slotFunction hw f (ptr + 96) 0x041d, [inst, metadata]⟩] ∧
    (swift_section_vwt_destructiveInjectEnumTag hw f ptr inst tag metadata).calls =
      [⟨ptr + 104, slotFunction hw f (ptr + 104) 0xb2e4, [inst, tag, metadata]⟩] ∧
    offsetOf ValueWitnessTable "size" = 64 ∧ offsetOf ValueWitnessTable "stride" = 72 ∧
    offsetOf ValueWitnessTable "flags" = 80 ∧
    offsetOf ValueWitnessTable "extraInhabitantCount" = 84 ∧
    sizeOf ValueWitnessTable = 88 := by
  have d0 : VWT_FP "initializeBufferWithCopyOfBuffer" = 0xda4a := by decide
  have d1 : VWT_FP "destroy" = 0x04f8 := by decide
  have d2 : VWT_FP "initializeWithCopy" = 0xe3ba := by decide
  have d3 : VWT_FP "assignWithCopy" = 0x8751 := by decide
  have d4 : VWT_FP "initializeWithTake" = 0x48d8 := by decide
  have d5 : VWT_FP "assignWithTake" = 0xefda := by decide
  have d6 : VWT_FP "getEnumTagSinglePayload" = 0x60f0 := by decide
  have d7 : VWT_FP "storeEnumTagSinglePayload" = 0xa0d1 := by decide
  have d8 : VWT_FP "getEnumTag" = 0xa3b5 := by decide
  have d9 : VWT_FP "destructiveProjectEnumData" = 0x041d := by decide
  have d10 : VWT_FP "destructiveInjectEnumTag" = 0xb2e4 := by decide
  refine ⟨?_, ?_, ?_, ?_, ?_, ?_, ?_, ?_, ?_, ?_, ?_, by decide, by decide, by decide,
    by decide, by decide⟩
  · simp only [swift_section_vwt_initializeBufferWithCopyOfBuffer,
      member_base hw f ptr "initializeBufferWithCopyOfBuffer" 0 (by decide), d0]
  · simp only [swift_section_vwt_destroy,
      member_base hw f ptr "destroy" 8 (by decide), d1]
  · simp only [swift_section_vwt_initializeWithCopy,
      member_base hw f ptr "initializeWithCopy" 16 (by decide), d2]
  · simp only [swift_section_vwt_assignWithCopy,
      member_base hw f ptr "assignWithCopy" 24 (by decide), d3]
  · simp only [swift_section_vwt_initializeWithTake,
      member_base hw f ptr "initializeWithTake" 32 (by decide), d4]
  · simp only [swift_section_vwt_assignWithTake,
      member_base hw f ptr "assignWithTake" 40 (by decide), d5]
  · simp only [swift_section_vwt_getEnumTagSinglePayload,
      member_base hw f ptr "getEnumTagSinglePayload" 48 (by decide), d6]
  · simp only [swift_section_vwt_storeEnumTagSinglePayload,
      member_base hw f ptr "storeEnumTagSinglePayload" 56 (by decide), d7]
  · simp only [swift_section_vwt_getEnumTag,
      member_enum hw f ptr "getEnumTag" 88 (by decide), d8]
  · simp only [swift_section_vwt_destructiveProjectEnumData,
      member_enum hw f ptr "destructiveProjectEnumData" 96 (by decide), d9]
  · simp only [swift_section_vwt_destructiveInjectEnumTag,
      member_enum hw f ptr "destructiveInjectEnumTag" 104 (by decide), d10]

end WitnessTable

namespace PtrAuth

/-! ## Sign, strip, blend -/

/-- C11. On hardware where stripping a pointer signed from the raw pointer
`ptr` with the same key gives `ptr` back, for each of the four hardware
keys, `PtrAuth_strip (PtrAuth_sign ptr key d) key = ptr` for every key
value and discriminator; and `PtrAuth_sign` and `PtrAuth_strip` map each
of `PtrAuthKeyASIA`, `PtrAuthKeyASIB`, `PtrAuthKeyASDA`, `PtrAuthKeyASDB`
to the same hardware key (asia, asib, asda, asdb). -/
theorem strip_sign_roundtrip (hw : Hardware) (ptr key d : Nat)
    (hraw : ∀ k ∈ [ptrauth_key_asia, ptrauth_key_asib, ptrauth_key_asda, ptrauth_key_asdb],
      hw.strip (hw.sign ptr k d) k = ptr) :
    PtrAuth_strip hw (PtrAuth_sign hw ptr key d) key = ptr ∧
    (∀ q e : Nat,
      PtrAuth_sign hw q PtrAuthKeyASIA e = hw.sign q ptrauth_key_asia e ∧
      PtrAuth_strip hw q PtrAuthKeyASIA = hw.strip q ptrauth_key_asia ∧
      PtrAuth_sign hw q PtrAuthKeyASIB e = hw.sign q ptrauth_key_asib e ∧
      PtrAuth_strip hw q PtrAuthKeyASIB = hw.strip q ptrauth_key_asib ∧
      PtrAuth_sign hw q PtrAuthKeyASDA e = hw.sign q ptrauth_key_asda e ∧
      PtrAuth_strip hw q PtrAuthKeyASDA = hw.strip q ptrauth_key_asda ∧
      PtrAuth_sign hw q PtrAuthKeyASDB e = hw.sign q ptrauth_key_asdb e ∧
      PtrAuth_strip hw q PtrAuthKeyASDB = hw.strip q ptrauth_key_asdb) := by
  have ha := hraw ptrauth_key_asia (by simp)
  have hb := hraw ptrauth_key_asib (by simp)
  have hc := hraw ptrauth_key_asda (by simp)
  have hd := hraw ptrauth_key_asdb (by simp)
  refine ⟨?_, ?_⟩
  · unfold PtrAuth_strip PtrAuth_sign
    by_cases h0 : key = PtrAuthKeyASIA
    · simp [h0, ha]
    · by_cases h1 : key = PtrAuthKeyASIB
      · simp [h1, hb, PtrAuthKeyASIB, PtrAuthKeyASIA]
      · by_cases h2 : key = PtrAuthKeyASDA
        · simp [h2, hc, PtrAuthKeyASDA, PtrAuthKeyASIB, PtrAuthKeyASIA]
        · by_cases h3 : key = PtrAuthKeyASDB
          · simp [h3, hd, PtrAuthKeyASDB, PtrAuthKeyASDA, PtrAuthKeyASIB, PtrAuthKeyASIA]
          · simp [h0, h1, h2, h3]
  · intro q e
    simp [PtrAuth_sign, PtrAuth_strip, PtrAuthKeyASIA, PtrAuthKeyASIB, PtrAuthKeyASDA,
      PtrAuthKeyASDB]

/-- Witness of C11: the toy signing scheme at the raw pointer 4096, key
`PtrAuthKeyASDA`, discriminator 51966. -/
theorem strip_sign_roundtrip_witness :
    (∀ k ∈ [ptrauth_key_asia, ptrauth_key_asib, ptrauth_key_asda, ptrauth_key_asdb],
      CallAccessor.toyHardware.strip (CallAccessor.toyHardware.sign 4096 k 51966) k = 4096) ∧
    PtrAuth_sign CallAccessor.toyHardware 4096 PtrAuthKeyASDA 51966 ≠ 4096 ∧
    PtrAuth_strip CallAccessor.toyHardware
      (PtrAuth_sign CallAccessor.toyHardware 4096 PtrAuthKeyASDA 51966) PtrAuthKeyASDA = 4096 :=
  ⟨by decide, by decide,
    (strip_sign_roundtrip CallAccessor.toyHardware 4096 PtrAuthKeyASDA 51966 (by decide)).1⟩

/-- C12. On hardware lacking the signing feature (its sign and strip
operations are the identity), `PtrAuth_sign ptr key d = ptr` and
`PtrAuth_strip ptr key = ptr` for every pointer, key and discriminator,
and `PtrAuth_blend` is a function of its two inputs: equal inputs give
equal outputs. -/
theorem sign_strip_identity_without_signing (hw : Hardware) (hlack : hw.LacksSigning)
    (ptr key d : Nat) :
    PtrAuth_sign hw ptr key d = ptr ∧
    PtrAuth_strip hw ptr key = ptr ∧
    (∀ p1 d1 p2 d2 : Nat, p1 = p2 → d1 = d2 →
      PtrAuth_blend hw p1 d1 = PtrAuth_blend hw p2 d2) ∧
    PtrAuth_blend hw ptr d = hw.blend ptr d := by
  obtain ⟨hs, ht⟩ := hlack
  refine ⟨?_, ?_, ?_, rfl⟩
  · unfold PtrAuth_sign
    split_ifs <;> simp [hs]
  · unfold PtrAuth_strip
    split_ifs <;> simp [ht]
  · rintro p1 d1 p2 d2 rfl rfl
    rfl

/-- Witness of C12: `plainHardware` lacks the signing feature. -/
theorem sign_strip_identity_without_signing_witness :
    plainHardware.LacksSigning ∧
    PtrAuth_sign plainHardware 4096 PtrAuthKeyASIB 51966 = 4096 ∧
    PtrAuth_strip plainHardware 4096 PtrAuthKeyASIB = 4096 :=
  ⟨⟨fun _ _ _ => rfl, fun _ _ => rfl⟩,
    (sign_strip_identity_without_signing plainHardware ⟨fun _ _ _ => rfl, fun _ _ => rfl⟩
      4096 PtrAuthKeyASIB 51966).1,
    (sign_strip_identity_without_signing plainHardware ⟨fun _ _ _ => rfl, fun _ _ => rfl⟩
      4096 PtrAuthKeyASIB 51966).2.1⟩

end PtrAuth

namespace CDemangleTree

/-! ## Order of the load attempt -/

/-- C13. A load attempt (null handle on entry) tries the toolchain path first.
If it opens, the bare name is not tried, the handle kept is the one
returned for the toolchain path and the four `dlsym` calls are made on
that handle. If it does not open, the bare name is tried next; if that
opens, its handle is kept and the four `dlsym` calls are made on it. If
neither opens, both were tried in that order and no symbol is resolved. -/
theorem load_attempt_order (h : Host) (g : Globals) (hg : g.sLib = 0) :
    (h.dlopen xcodeToolchainPath ≠ 0 →
      (ensureLoaded h g).2.2 =
        [Event.dlopen xcodeToolchainPath,
         Event.dlsym (h.dlopen xcodeToolchainPath) symCtxCtor,
         Event.dlsym (h.dlopen xcodeToolchainPath) symCtxDtor,
         Event.dlsym (h.dlopen xcodeToolchainPath) symDemangle,
         Event.dlsym (h.dlopen xcodeToolchainPath) symTreeStr] ∧
      (ensureLoaded h g).2.1 =
        ⟨h.dlopen xcodeToolchainPath,
         h.dlsym (h.dlopen xcodeToolchainPath) symCtxCtor,
         h.dlsym (h.dlopen xcodeToolchainPath) symCtxDtor,
         h.dlsym (h.dlopen xcodeToolchainPath) symDemangle,
         h.dlsym (h.dlopen xcodeToolchainPath) symTreeStr⟩) ∧
    (h.dlopen xcodeToolchainPath = 0 → h.dlopen bareLibraryName ≠ 0 →
      (ensureLoaded h g).2.2 =
        [Event.dlopen xcodeToolchainPath, Event.dlopen bareLibraryName,
         Event.dlsym (h.dlopen bareLibraryName) symCtxCtor,
         Event.dlsym (h.dlopen bareLibraryName) symCtxDtor,
         Event.dlsym (h.dlopen bareLibraryName) symDemangle,
         Event.dlsym (h.dlopen bareLibraryName) symTreeStr] ∧
      (ensureLoaded h g).2.1 =
        ⟨h.dlopen bareLibraryName,
         h.dlsym (h.dlopen bareLibraryName) symCtxCtor,
         h.dlsym (h.dlopen bareLibraryName) symCtxDtor,
         h.dlsym (h.dlopen bareLibraryName) symDemangle,
         h.dlsym (h.dlopen bareLibraryName) symTreeStr⟩) ∧
    (h.dlopen xcodeToolchainPath = 0 → h.dlopen bareLibraryName = 0 →
      (ensureLoaded h g).2.2 =
        [Event.dlopen xcodeToolchainPath, Event.dlopen bareLibraryName] ∧
      (ensureLoaded h g).2.1 = g) := by
  refine ⟨?_, ?_, ?_⟩
  · intro h1
    simp [ensureLoaded, hg, paths, openLoop, h1]
  · intro h1 h2
    simp [ensureLoaded, hg, paths, openLoop, h1, h2]
  · intro h1 h2
    have hfail : ∀ p ∈ paths, h.dlopen p = 0 := by
      intro p hp
      simp only [paths, List.mem_cons, List.mem_singleton, List.not_mem_nil, or_false] at hp
      rcases hp with hp | hp <;> simp [hp, h1, h2]
    rw [ensureLoaded_open_fail h g hg hfail]
    simp [paths]

/-- Witness of C13: in `completeHost` the toolchain path opens and the bare
name is not tried; in `bareOnlyHost` the toolchain path is tried first and
the handle of the bare name is the one kept and resolved against. -/
theorem load_attempt_order_witness :
    Globals.init.sLib = 0 ∧ completeHost.dlopen xcodeToolchainPath ≠ 0 ∧
    (ensureLoaded completeHost Globals.init).2.2 =
      [Event.dlopen xcodeToolchainPath,
       Event.dlsym 4096 symCtxCtor, Event.dlsym 4096 symCtxDtor,
       Event.dlsym 4096 symDemangle, Event.dlsym 4096 symTreeStr] ∧
    bareOnlyHost.dlopen xcodeToolchainPath = 0 ∧ bareOnlyHost.dlopen bareLibraryName ≠ 0 ∧
    (ensureLoaded bareOnlyHost Globals.init).2.2 =
      [Event.dlopen xcodeToolchainPath, Event.dlopen bareLibraryName,
       Event.dlsym 24576 symCtxCtor, Event.dlsym 24576 symCtxDtor,
       Event.dlsym 24576 symDemangle, Event.dlsym 24576 symTreeStr] :=
  ⟨rfl, by decide,
    ((load_attempt_order completeHost Globals.init rfl).1 (by decide)).1,
    by decide, by decide,
    ((load_attempt_order bareOnlyHost Globals.init rfl).2.1 (by decide) (by decide)).1⟩

end CDemangleTree

namespace CallAccessor

open PtrAuth

/-! ## The pointer called through -/

/-- C14. Each of the five entries makes exactly one call, and the pointer
value it calls through is `sign ptr ptrauth_key_function_pointer 0` on
arm64e and `ptr` itself elsewhere; elsewhere control reaches `ptr`. -/
theorem accessor_called_pointer (arm64e : Bool) (hw : Hardware) (code : Accessors)
    (ptr request arg0 arg1 arg2 args : Nat) :
    (swift_section_callAccessor0 arm64e hw code ptr request).calls =
      [⟨if arm64e = true then hw.sign ptr ptrauth_key_function_pointer 0 else ptr,
        request, []⟩] ∧
    (swift_section_callAccessor1 arm64e hw code ptr request arg0).calls =
      [⟨if arm64e = true then hw.sign ptr ptrauth_key_function_pointer 0 else ptr,
        request, [arg0]⟩] ∧
    (swift_section_callAccessor2 arm64e hw code ptr request arg0 arg1).calls =
      [⟨if arm64e = true then hw.sign ptr ptrauth_key_function_pointer 0 else ptr,
        request, [arg0, arg1]⟩] ∧
    (swift_section_callAccessor3 arm64e hw code ptr request arg0 arg1 arg2).calls =
      [⟨if arm64e = true then hw.sign ptr ptrauth_key_function_pointer 0 else ptr,
        request, [arg0, arg1, arg2]⟩] ∧
    (swift_section_callAccessor arm64e hw code ptr request args).calls =
      [⟨if arm64e = true then hw.sign ptr ptrauth_key_function_pointer 0 else ptr,
        request, [args]⟩] ∧
    ptrauth_key_function_pointer = ptrauth_key_asia ∧
    branchTarget false hw (signIfArm64e false hw ptr) = ptr := by
  refine ⟨?_, ?_, ?_, ?_, ?_, rfl, ?_⟩ <;>
    simp [swift_section_callAccessor0, swift_section_callAccessor1,
      swift_section_callAccessor2, swift_section_callAccessor3, swift_section_callAccessor,
      callThrough, signIfArm64e, branchTarget]

end CallAccessor

namespace WitnessTable

open PtrAuth

/-! ## Values returned by the dispatch entries -/

/-- C15 as stated fails: when the `getEnumTag` slot returns the `int` -1, the
entry `swift_section_vwt_getEnumTag` returns 4294967295, which is not -1
as an integer. -/
theorem getEnumTag_negative_not_unchanged :
    negativeTagForeign.callInt (slotFunction plainHardware negativeTagForeign (4096 + 88) 0xa3b5)
      [8192, 12288] = -1 ∧
    (swift_section_vwt_getEnumTag plainHardware negativeTagForeign 4096 8192 12288).value =
      4294967295 ∧
    ((swift_section_vwt_getEnumTag plainHardware negativeTagForeign 4096 8192 12288).value : Int) ≠
      negativeTagForeign.callInt
        (slotFunction plainHardware negativeTagForeign (4096 + 88) 0xa3b5) [8192, 12288] := by
  refine ⟨by decide, by decide, by decide⟩

/-- C15, amended. The six entries returning `void *` and
`swift_section_vwt_getEnumTagSinglePayload` return the value their slot
function returns, unchanged. `swift_section_vwt_getEnumTag` returns the
`int` `r` of its slot converted to `unsigned`, that is `r` modulo `2^32`:
`r` itself when `r` is non-negative and `r + 2^32` when `r` is negative. -/
theorem value_entries_return_slot_result (hw : Hardware) (f : Foreign)
    (ptr dest src inst numEmptyCases metadata : Nat)
    (hmin : -(2 ^ 31 : Int) ≤ f.callInt (slotFunction hw f (ptr + 88) 0xa3b5) [inst, metadata])
    (hmax : f.callInt (slotFunction hw f (ptr + 88) 0xa3b5) [inst, metadata] < (2 ^ 31 : Int)) :
    (swift_section_vwt_initializeBufferWithCopyOfBuffer hw f ptr dest src metadata).value =
      f.call (slotFunction hw f (ptr + 0) 0xda4a) [dest, src, metadata] ∧
    (swift_section_vwt_initializeWithCopy hw f ptr dest src metadata).value =
      f.call (slotFunction hw f (ptr + 16) 0xe3ba) [dest, src, metadata] ∧
    (swift_section_vwt_assignWithCopy hw f ptr dest src metadata).value =
      f.call (slotFunction hw f (ptr + 24) 0x8751) [dest, src, metadata] ∧
    (swift_section_vwt_initializeWithTake hw f ptr dest src metadata).value =
      f.call (slotFunction hw f (ptr + 32) 0x48d8) [dest, src, metadata] ∧
    (swift_section_vwt_assignWithTake hw f ptr dest src metadata).value =
      f.call (slotFunction hw f (ptr + 40) 0xefda) [dest, src, metadata] ∧
    (swift_section_vwt_getEnumTagSinglePayload hw f ptr inst numEmptyCases metadata).value =
      f.call (slotFunction hw f (ptr + 48) 0x60f0) [inst, numEmptyCases, metadata] ∧
    ((swift_section_vwt_getEnumTag hw f ptr inst metadata).value : Int) =
      f.callInt (slotFunction hw f (ptr + 88) 0xa3b5) [inst, metadata] % (2 ^ 32 : Int) ∧
    (0 ≤ f.callInt (slotFunction hw f (ptr + 88) 0xa3b5) [inst, metadata] →
      ((swift_section_vwt_getEnumTag hw f ptr inst metadata).value : Int) =
        f.callInt (slotFunction hw f (ptr + 88) 0xa3b5) [inst, metadata]) ∧
    (f.callInt (slotFunction hw f (ptr + 88) 0xa3b5) [inst, metadata] < 0 →
      ((swift_section_vwt_getEnumTag hw f ptr inst metadata).value : Int) =
        f.callInt (slotFunction hw f (ptr + 88) 0xa3b5) [inst, metadata] + (2 ^ 32 : Int)) := by
  have d0 : VWT_FP "initializeBufferWithCopyOfBuffer" = 0xda4a := by decide
  have d2 : VWT_FP "initializeWithCopy" = 0xe3ba := by decide
  have d3 : VWT_FP "assignWithCopy" = 0x8751 := by decide
  have d4 : VWT_FP "initializeWithTake" = 0x48d8 := by decide
  have d5 : VWT_FP "assignWithTake" = 0xefda := by decide
  have d6 : VWT_FP "getEnumTagSinglePayload" = 0x60f0 := by decide
  have d8 : VWT_FP "getEnumTag" = 0xa3b5 := by decide
  have hval : ((swift_section_vwt_getEnumTag hw f ptr inst metadata).value : Int) =
      f.callInt (slotFunction hw f (ptr + 88) 0xa3b5) [inst, metadata] % (2 ^ 32 : Int) := by
    simp only [swift_section_vwt_getEnumTag,
      member_enum hw f ptr "getEnumTag" 88 (by decide), d8]
    exact Int.toNat_of_nonneg (Int.emod_nonneg _ (by norm_num))
  refine ⟨?_, ?_, ?_, ?_, ?_, ?_, hval, ?_, ?_⟩
  · simp only [swift_section_vwt_initializeBufferWithCopyOfBuffer,
      member_base hw f ptr "initializeBufferWithCopyOfBuffer" 0 (by decide), d0]
  · simp only [swift_section_vwt_initializeWithCopy,
      member_base hw f ptr "initializeWithCopy" 16 (by decide), d2]
  · simp only [swift_section_vwt_assignWithCopy,
      member_base hw f ptr "assignWithCopy" 24 (by decide), d3]
  · simp only [swift_section_vwt_initializeWithTake,
      member_base hw f ptr "initializeWithTake" 32 (by decide), d4]
  · simp only [swift_section_vwt_assignWithTake,
      member_base hw f ptr "assignWithTake" 40 (by decide), d5]
  · simp only [swift_section_vwt_getEnumTagSinglePayload,
      member_base hw f ptr "getEnumTagSinglePayload" 48 (by decide), d6]
  · intro h0
    rw [hval]
    exact Int.emod_eq_of_lt h0 (by omega)
  · intro hneg
    rw [hval]
    omega

/-- Witness of the amended C15: the slot returns -1, the entry returns
`-1 + 2^32`. -/
theorem value_entries_return_slot_result_witness :
    -(2 ^ 31 : Int) ≤ negativeTagForeign.callInt
      (slotFunction plainHardware negativeTagForeign (4096 + 88) 0xa3b5) [8192, 12288] ∧
    negativeTagForeign.callInt
      (slotFunction plainHardware negativeTagForeign (4096 + 88) 0xa3b5) [8192, 12288]
        < (2 ^ 31 : Int) ∧
    ((swift_section_vwt_getEnumTag plainHardware negativeTagForeign 4096 8192 12288).value : Int) =
      negativeTagForeign.callInt
        (slotFunction plainHardware negativeTagForeign (4096 + 88) 0xa3b5) [8192, 12288]
        + (2 ^ 32 : Int) ∧
    (swift_section_vwt_assignWithTake plainHardware negativeTagForeign 4096 20480 24576 12288).value =
      negativeTagForeign.call
        (slotFunction plainHardware negativeTagForeign (4096 + 40) 0xefda) [20480, 24576, 12288] :=
  ⟨by decide, by decide,
    (value_entries_return_slot_result plainHardware negativeTagForeign 4096 20480 24576 8192 3 12288
      (by decide) (by decide)).2.2.2.2.2.2.2.2 (by decide),
    (value_entries_return_slot_result plainHardware negativeTagForeign 4096 20480 24576 8192 3 12288
      (by decide) (by decide)).2.2.2.2.1⟩

end WitnessTable
